import Mathlib

/-!
Verification of the parabola-swisseph batch execution engine.

The repository ships two variants of the core wrapper file
(parabola_wrapper.cpp): variant A, the production wrapper with a singleton
resizable thread pool, clamp-based slicing and a post-merge count check;
and variant B, an earlier standalone wrapper whose compute_batch re-runs
the autotuner and closes the ephemeris on every call.  Both are embedded
below; definitions carry an A or B marker matching the variant they are
read from.

Modelling conventions: timestamps (C++ double jd) and measured throughput
are embedded as exact rationals; no verified claim depends on
floating-point rounding.  The external routine swe_calc_ut is an opaque
parameter (calc) since its numerics are out of scope.  Machine integers
in the swevid loader are modelled as Int/Nat with explicit reduction
modulo 2^64 where the C++ conversions and size_t additions wrap.
-/

/-- Mirrors struct PlanetRequest: a Julian-day timestamp and a planet id. -/
structure PlanetRequest where
  jd : ℚ
  ipl : Int
  deriving DecidableEq

/-- Output of one opaque swe_calc_ut call: position vector, return code,
error string. -/
structure CalcOut where
  xx : List ℚ
  errcode : Int
  serr : String
  deriving DecidableEq

/-- Mirrors struct PlanetResult as filled in by the per-slice task body. -/
structure PlanetResult where
  ipl : Int
  xx : List ℚ
  errcode : Int
  serr : String
  deriving DecidableEq

/-- The body of the per-request loop in both variants' slice tasks:
r.ipl is copied from the request, the rest comes from swe_calc_ut. -/
def computeOne (calcFn : ℚ → Int → CalcOut) (req : PlanetRequest) : PlanetResult :=
  let out := calcFn req.jd req.ipl
  { ipl := req.ipl, xx := out.xx, errcode := out.errcode, serr := out.serr }

/-- Contiguous slicing loop "for (i = 0; i < n; i += sz)", fuelled so it is
structurally recursive; fuel at least l.length suffices whenever sz > 0,
which all call sites guarantee. -/
def chunksAux (sz : Nat) : Nat → List α → List (List α)
  | _, [] => []
  | 0, l => [l]
  | fuel + 1, l =>
    if sz = 0 then [l] else l.take sz :: chunksAux sz fuel (l.drop sz)

/-- Partition a list into contiguous slices of size sz (last may be short). -/
def chunks (sz : Nat) (l : List α) : List (List α) :=
  chunksAux sz l.length l

theorem chunksAux_flatten (sz fuel : Nat) (l : List α) :
    (chunksAux sz fuel l).flatten = l := by
  induction fuel generalizing l with
  | zero => cases l <;> simp [chunksAux]
  | succ n ih =>
    cases l with
    | nil => simp [chunksAux]
    | cons a t =>
      by_cases h : sz = 0
      · simp [chunksAux, h]
      · simp only [chunksAux, if_neg h, List.flatten_cons, ih]
        exact List.take_append_drop sz (a :: t)

/-- Concatenating the contiguous slices in submission order reconstructs
the original batch. -/
theorem chunks_flatten (sz : Nat) (l : List α) : (chunks sz l).flatten = l :=
  chunksAux_flatten sz l.length l

theorem flatten_map_map (f : α → β) (L : List (List α)) :
    (L.map (List.map f)).flatten = L.flatten.map f := by
  induction L with
  | nil => rfl
  | cons a t ih =>
    simp only [List.map_cons, List.flatten_cons, List.map_append, ih]

/-- Variant A slice size, lines 252-256: min(100, max(10, n / pool.size())),
i.e. clamp(n / poolSize, 10, 100). -/
def targetBatchSize (n psz : Nat) : Nat :=
  min 100 (max 10 (n / psz))

/-- Variant B slice size, line 462: max(1, n / g_parabola_thread_count). -/
def sliceSize_B (n tc : Nat) : Nat :=
  max 1 (n / tc)

/-- Variant A merge plus post-condition check, lines 284-300: concatenate
the per-slice results in submission order; if the total differs from the
request count, throw "Result count mismatch". -/
def mergeSlices_A (n : Nat) (sliceResults : List (List PlanetResult)) :
    Except String (List PlanetResult) :=
  let merged := sliceResults.flatten
  if merged.length ≠ n then Except.error "Result count mismatch" else Except.ok merged

/-- Variant B merge, lines 481-485: concatenate the per-slice results in
submission order and return them; no count check of any kind. -/
def mergeSlices_B (sliceResults : List (List PlanetResult)) : List PlanetResult :=
  sliceResults.flatten

/-- Variant A compute_batch with the per-slice task execution abstracted
(exec is what one pool task returns for one slice); used to express the
post-merge consistency check, lines 258-300. -/
def compute_batch_A_exec (exec : List PlanetRequest → List PlanetResult)
    (psz : Nat) (reqs : List PlanetRequest) : Except String (List PlanetResult) :=
  mergeSlices_A reqs.length ((chunks (targetBatchSize reqs.length psz) reqs).map exec)

/-- Variant B compute_batch with the per-slice task execution abstracted,
lines 464-485: merge is returned with no consistency check. -/
def compute_batch_B_exec (exec : List PlanetRequest → List PlanetResult)
    (tc : Nat) (reqs : List PlanetRequest) : List PlanetResult :=
  mergeSlices_B ((chunks (sliceSize_B reqs.length tc) reqs).map exec)

/-- Variant A compute_batch, lines 243-303: initialization guard, clamp
slicing, sequential per-slice computation, order-preserving merge, count
check. -/
def compute_batch_A (calcFn : ℚ → Int → CalcOut) (inited : Bool) (psz : Nat)
    (reqs : List PlanetRequest) : Except String (List PlanetResult) :=
  if !inited then Except.error "Swiss Ephemeris not initialized"
  else compute_batch_A_exec (fun s => s.map (computeOne calcFn)) psz reqs

/-- Variant B compute_batch, lines 457-489, with the thread count chosen by
its inline autotune pass abstracted as tc (autotune always returns ≥ 1). -/
def compute_batch_B (calcFn : ℚ → Int → CalcOut) (tc : Nat)
    (reqs : List PlanetRequest) : List PlanetResult :=
  compute_batch_B_exec (fun s => s.map (computeOne calcFn)) tc reqs

theorem compute_batch_A_eq_map (calcFn : ℚ → Int → CalcOut) (psz : Nat)
    (reqs : List PlanetRequest) :
    compute_batch_A calcFn true psz reqs = Except.ok (reqs.map (computeOne calcFn)) := by
  unfold compute_batch_A compute_batch_A_exec mergeSlices_A
  simp only [Bool.not_true, Bool.false_eq_true, if_false]
  rw [flatten_map_map, chunks_flatten]
  simp

theorem compute_batch_B_eq_map (calcFn : ℚ → Int → CalcOut) (tc : Nat)
    (reqs : List PlanetRequest) :
    compute_batch_B calcFn tc reqs = reqs.map (computeOne calcFn) := by
  unfold compute_batch_B compute_batch_B_exec mergeSlices_B
  rw [flatten_map_map, chunks_flatten]

/-- C1: for every batch of N requests, compute_batch on an initialized
system returns exactly N results with result[i].targetId (ipl) equal to
request[i].targetId, for any pool size and hence any slice boundaries;
this holds for both source variants. -/
theorem C1_order_preservation (calcFn : ℚ → Int → CalcOut) (psz tc : Nat)
    (reqs : List PlanetRequest) (hpsz : 0 < psz) (htc : 0 < tc) :
    ∃ res, compute_batch_A calcFn true psz reqs = Except.ok res ∧
      res.length = reqs.length ∧
      res.map (fun r => r.ipl) = reqs.map (fun q => q.ipl) ∧
      (compute_batch_B calcFn tc reqs).length = reqs.length ∧
      (compute_batch_B calcFn tc reqs).map (fun r => r.ipl) = reqs.map (fun q => q.ipl) := by
  refine ⟨reqs.map (computeOne calcFn), compute_batch_A_eq_map calcFn psz reqs, by simp, ?_, ?_, ?_⟩
  · simp [computeOne]
  · rw [compute_batch_B_eq_map]; simp
  · rw [compute_batch_B_eq_map]; simp [computeOne]

/-- Demonstration calc function used to instantiate witnesses. -/
def calcDemo : ℚ → Int → CalcOut :=
  fun _ _ => { xx := [0, 0, 0, 0, 0, 0], errcode := 0, serr := "" }

/-- Concrete three-request batch used in witnesses. -/
def reqsDemo3 : List PlanetRequest :=
  [{ jd := 2451545, ipl := 0 }, { jd := 2451545, ipl := 1 }, { jd := 2451545, ipl := 2 }]

theorem C1_order_preservation_witness :
    ∃ res, compute_batch_A calcDemo true 2 reqsDemo3 = Except.ok res ∧
      res.length = reqsDemo3.length ∧
      res.map (fun r => r.ipl) = reqsDemo3.map (fun q => q.ipl) ∧
      (compute_batch_B calcDemo 1 reqsDemo3).length = reqsDemo3.length ∧
      (compute_batch_B calcDemo 1 reqsDemo3).map (fun r => r.ipl) = reqsDemo3.map (fun q => q.ipl) :=
  C1_order_preservation calcDemo 2 1 reqsDemo3 (by decide) (by decide)

/-- Concrete two-request batch used in counterexamples. -/
def reqsDemo2 : List PlanetRequest :=
  [{ jd := 2451545, ipl := 0 }, { jd := 2451545, ipl := 1 }]

/-- A faulty slice executor that drops every result; models the internal
inconsistency the post-merge count check is there to catch. -/
def dropAllExec : List PlanetRequest → List PlanetResult :=
  fun _ => []

/-- C2 counterexample: the claim says the count check is performed on every
batch call, but variant B's compute_batch (lines 481-489) performs no
check: with a slice execution that loses results, variant B silently
returns 0 results for a 2-request batch, while variant A raises the fatal
mismatch error on the same input. -/
theorem C2_counterexample :
    compute_batch_B_exec dropAllExec 1 reqsDemo2 = [] ∧
    reqsDemo2.length = 2 ∧
    compute_batch_A_exec dropAllExec 1 reqsDemo2 =
      Except.error "Result count mismatch" := by
  refine ⟨rfl, rfl, ?_⟩
  rfl

/-- C2 amended: variant A's compute_batch checks after merging that the
total number of results equals the number of requests, raising the fatal
"Result count mismatch" error on any mismatch and never returning a
result list of the wrong length; variant B returns the merged list with
no such check. -/
theorem C2_merge_count_check (exec : List PlanetRequest → List PlanetResult)
    (psz : Nat) (reqs : List PlanetRequest) :
    (∀ res, compute_batch_A_exec exec psz reqs = Except.ok res →
      res.length = reqs.length) ∧
    (((chunks (targetBatchSize reqs.length psz) reqs).map exec).flatten.length ≠
        reqs.length →
      compute_batch_A_exec exec psz reqs = Except.error "Result count mismatch") ∧
    compute_batch_B_exec exec psz reqs =
      ((chunks (sliceSize_B reqs.length psz) reqs).map exec).flatten := by
  refine ⟨?_, ?_, rfl⟩
  · intro res hres
    unfold compute_batch_A_exec mergeSlices_A at hres
    by_cases h :
        ((chunks (targetBatchSize reqs.length psz) reqs).map exec).flatten.length =
          reqs.length
    · simp only [h, ne_eq, not_true_eq_false, if_false, Except.ok.injEq] at hres
      rw [← hres, h]
    · simp only [ne_eq, h, not_false_eq_true, if_true] at hres
      exact absurd hres (by simp)
  · intro h
    unfold compute_batch_A_exec mergeSlices_A
    simp only [ne_eq, h, not_false_eq_true, if_true]

theorem C2_merge_count_check_witness :
    (∀ res, compute_batch_A_exec dropAllExec 1 reqsDemo3 = Except.ok res →
      res.length = reqsDemo3.length) ∧
    (((chunks (targetBatchSize reqsDemo3.length 1) reqsDemo3).map dropAllExec).flatten.length ≠
        reqsDemo3.length →
      compute_batch_A_exec dropAllExec 1 reqsDemo3 =
        Except.error "Result count mismatch") ∧
    compute_batch_B_exec dropAllExec 1 reqsDemo3 =
      ((chunks (sliceSize_B reqsDemo3.length 1) reqsDemo3).map dropAllExec).flatten :=
  C2_merge_count_check dropAllExec 1 reqsDemo3

/-- Concrete eight-request batch used in the slicing counterexample. -/
def reqsDemo8 : List PlanetRequest :=
  (List.range 8).map (fun (i : Nat) => { jd := (i : ℚ), ipl := Int.ofNat i })

/-- C7 counterexample: the claim says every batch is partitioned into
slices of size clamp(batchSize / poolSize, 10, 100), but variant B
(line 462) slices by max(1, batchSize / threadCount): an 8-request batch
on 4 threads is split into four slices of length 2, not one slice as the
clamp (minimum slice size 10) would dictate. -/
theorem C7_counterexample :
    sliceSize_B 8 4 = 2 ∧
    targetBatchSize 8 4 = 10 ∧
    (chunks (sliceSize_B 8 4) reqsDemo8).map List.length = [2, 2, 2, 2] ∧
    (chunks (targetBatchSize 8 4) reqsDemo8).map List.length = [8] := by
  decide

theorem chunksAux_length_le (sz : Nat) (hsz : 0 < sz) :
    ∀ fuel : Nat, ∀ l : List α, l.length ≤ fuel →
      ∀ c ∈ chunksAux sz fuel l, 0 < c.length ∧ c.length ≤ sz := by
  intro fuel
  induction fuel with
  | zero =>
    intro l hl c hc
    cases l with
    | nil => simp [chunksAux] at hc
    | cons a t => simp at hl
  | succ n ih =>
    intro l hl c hc
    cases l with
    | nil => simp [chunksAux] at hc
    | cons a t =>
      simp only [chunksAux, if_neg (Nat.pos_iff_ne_zero.mp hsz), List.mem_cons] at hc
      rcases hc with hc | hc
      · subst hc
        constructor
        · simp [Nat.lt_min, hsz]
        · simp
      · refine ih ((a :: t).drop sz) ?_ c hc
        have : (a :: t).length ≤ n + 1 := hl
        simp only [List.length_drop]
        omega

/-- C7 amended: variant A partitions the batch into contiguous slices of
size clamp(batchSize / poolSize, 10, 100) (each slice nonempty and at
most that size) and the concatenation of the slices in submission order
is exactly the original batch; variant B has the same contiguity and
order-preservation properties but its slice size is
max(1, batchSize / threadCount) with no 10/100 clamp. -/
theorem C7_slicing (psz tc : Nat) (reqs : List PlanetRequest)
    (hpsz : 0 < psz) (htc : 0 < tc) :
    targetBatchSize reqs.length psz =
      min 100 (max 10 (reqs.length / psz)) ∧
    (chunks (targetBatchSize reqs.length psz) reqs).flatten = reqs ∧
    (∀ c ∈ chunks (targetBatchSize reqs.length psz) reqs,
      0 < c.length ∧ c.length ≤ targetBatchSize reqs.length psz) ∧
    sliceSize_B reqs.length tc = max 1 (reqs.length / tc) ∧
    (chunks (sliceSize_B reqs.length tc) reqs).flatten = reqs ∧
    (∀ c ∈ chunks (sliceSize_B reqs.length tc) reqs,
      0 < c.length ∧ c.length ≤ sliceSize_B reqs.length tc) := by
  refine ⟨rfl, chunks_flatten _ _, ?_, rfl, chunks_flatten _ _, ?_⟩
  · exact chunksAux_length_le _ (by simp [targetBatchSize]) _ _ le_rfl
  · exact chunksAux_length_le _ (by simp [sliceSize_B]) _ _ le_rfl

theorem C7_slicing_witness :
    targetBatchSize reqsDemo3.length 2 =
      min 100 (max 10 (reqsDemo3.length / 2)) ∧
    (chunks (targetBatchSize reqsDemo3.length 2) reqsDemo3).flatten = reqsDemo3 ∧
    (∀ c ∈ chunks (targetBatchSize reqsDemo3.length 2) reqsDemo3,
      0 < c.length ∧ c.length ≤ targetBatchSize reqsDemo3.length 2) ∧
    sliceSize_B reqsDemo3.length 1 = max 1 (reqsDemo3.length / 1) ∧
    (chunks (sliceSize_B reqsDemo3.length 1) reqsDemo3).flatten = reqsDemo3 ∧
    (∀ c ∈ chunks (sliceSize_B reqsDemo3.length 1) reqsDemo3,
      0 < c.length ∧ c.length ≤ sliceSize_B reqsDemo3.length 1) :=
  C7_slicing 2 1 reqsDemo3 (by decide) (by decide)

/-- ThreadPool::resize thread-count resolution, lines 47-50: a requested
count of 0 falls back to std::thread::hardware_concurrency(), which the
platform may itself report as 0; exactly this many workers are spawned,
so the pool size equals the resolved count. -/
def resolveThreadCount (requested hw : Nat) : Nat :=
  if requested = 0 then hw else requested

/-- C10 counterexample: the claim says the pool always holds at least one
worker even when hardware_concurrency() reports 0 and the requested count
is 0, but resize then resolves the count to 0: the pool is empty and the
slice-size divisor pool.size() in compute_batch is zero. -/
theorem C10_counterexample :
    resolveThreadCount 0 0 = 0 ∧ ¬ 0 < resolveThreadCount 0 0 := by
  decide

/-- C10 amended: the pool contains at least one worker whenever the
requested thread count or the platform-reported hardware concurrency is
nonzero; only when both are 0 does resize produce an empty pool (and the
slice-size computation in compute_batch then divides by pool.size() = 0). -/
theorem C10_pool_nonempty (requested hw : Nat) (h : 0 < requested ∨ 0 < hw) :
    0 < resolveThreadCount requested hw := by
  unfold resolveThreadCount
  rcases h with h | h
  · rw [if_neg (Nat.pos_iff_ne_zero.mp h)]; exact h
  · by_cases hr : requested = 0
    · rw [if_pos hr]; exact h
    · rw [if_neg hr]; omega

theorem C10_pool_nonempty_witness : 0 < resolveThreadCount 0 4 :=
  C10_pool_nonempty 0 4 (Or.inr (by decide))

/-- Autotuner accumulator: best thread count and best throughput so far
(variant A initializes it to best_threads = 1, best_throughput = 0). -/
structure TuneState where
  best_threads : Nat
  best_throughput : ℚ
  deriving DecidableEq

/-- Variant A selection step, lines 226-231: adopt the candidate as best
(count and throughput) only when its throughput exceeds the best so far
by more than 5 percent (factor 21/20); otherwise, if the candidate uses
more threads and its throughput is not more than 5 percent below the
best (factor 19/20), keep the best throughput but prefer the higher
thread count. -/
def selectStep_A (s : TuneState) (t : Nat) (tp : ℚ) : TuneState :=
  if tp > s.best_throughput * (21 / 20) then
    { best_threads := t, best_throughput := tp }
  else if t > s.best_threads ∧ tp ≥ s.best_throughput * (19 / 20) then
    { best_threads := t, best_throughput := s.best_throughput }
  else s

/-- Variant B selection step, lines 443-449: adopt the candidate only on a
strict throughput improvement; the returned flag is whether the trial
loop continues (false means the loop breaks at this trial). -/
def selectStep_B (s : TuneState) (t : Nat) (tp : ℚ) : TuneState × Bool :=
  if tp > s.best_throughput then ({ best_threads := t, best_throughput := tp }, true)
  else (s, false)

/-- Variant A trial progression, line 191: 1, 2, 3, 4, then doubling. -/
def nextTrial (t : Nat) : Nat :=
  if t < 4 then t + 1 else t * 2

/-- Variant A autotune loop, lines 191-235, over an abstract per-trial
outcome (some tp = the trial at that thread count measured throughput tp;
none = pool resize threw, e.g. thread creation failed, which breaks the
loop keeping the best found so far).  Fuelled structural recursion; fuel
max_threads + 1 is always sufficient since the trial count strictly
increases while at most max_threads trials run. -/
def autotuneGo (f : Nat → Option ℚ) (max_threads : Nat) :
    Nat → Nat → TuneState → List Nat → TuneState × List Nat
  | 0, _, s, v => (s, v)
  | fuel + 1, t, s, v =>
    if t ≤ max_threads ∧ 1 ≤ t then
      match f t with
      | none => (s, v)
      | some tp => autotuneGo f max_threads fuel (nextTrial t) (selectStep_A s t tp) (v ++ [t])
    else (s, v)

/-- Variant A autotune_threads: the final tuning state and the list of
thread counts actually trialled, in order. -/
def autotuneRun_A (f : Nat → Option ℚ) (max_threads : Nat) : TuneState × List Nat :=
  autotuneGo f max_threads (max_threads + 1) 1 { best_threads := 1, best_throughput := 0 } []

/-- The trial sequence 1, 2, 3, 4, 8, 16, ... truncated at the ceiling. -/
def trialSeqGo (max_threads : Nat) : Nat → Nat → List Nat
  | 0, _ => []
  | fuel + 1, t =>
    if t ≤ max_threads ∧ 1 ≤ t then t :: trialSeqGo max_threads fuel (nextTrial t)
    else []

/-- The full ascending trial sequence up to the ceiling. -/
def trialSeq (max_threads : Nat) : List Nat :=
  trialSeqGo max_threads (max_threads + 1) 1

theorem autotuneGo_spec (f : Nat → Option ℚ) (max_threads : Nat) :
    ∀ (fuel t : Nat) (s : TuneState) (v : List Nat),
      autotuneGo f max_threads fuel t s v =
        (((trialSeqGo max_threads fuel t).takeWhile (fun u => (f u).isSome)).foldl
            (fun s' u => selectStep_A s' u ((f u).getD 0)) s,
          v ++ (trialSeqGo max_threads fuel t).takeWhile (fun u => (f u).isSome)) := by
  intro fuel
  induction fuel with
  | zero => intro t s v; simp [autotuneGo, trialSeqGo]
  | succ n ih =>
    intro t s v
    by_cases hcond : t ≤ max_threads ∧ 1 ≤ t
    · simp only [autotuneGo, trialSeqGo, if_pos hcond]
      cases hf : f t with
      | none => simp [List.takeWhile_cons, hf]
      | some tp =>
        simp [List.takeWhile_cons, hf, ih]
    · simp [autotuneGo, trialSeqGo, if_neg hcond]

/-- C6 counterexample: the claim says the autotuner stops early when
throughput regresses past the 5 percent margin, but variant A's loop
(lines 191-235) has no regression-based exit: with throughput 100 at one
thread and 50 (a 50 percent regression) at every later count, all trials
1, 2, 3, 4 up to the ceiling 4 are still run. -/
theorem C6_counterexample :
    (autotuneRun_A (fun t => if t = 1 then some 100 else some 50) 4).2 =
      [1, 2, 3, 4] ∧
    ((50 : ℚ) < (19 / 20) * 100) := by
  constructor
  · rw [autotuneRun_A, autotuneGo_spec]
    decide
  · norm_num

/-- C6 amended: variant A trials run at thread counts 1, 2, 3, 4, then
doubling, up to the ceiling; the trials actually run are exactly the
longest initial segment of that sequence on which pool resize succeeds
(so the loop stops early only at the first thread-creation failure,
keeping the selection folded over the trials run so far, and never stops
on a throughput regression); variant B instead advances its trial count
by one each round and breaks at the first non-improving trial. -/
theorem C6_trial_schedule (f : Nat → Option ℚ) (max_threads : Nat) :
    (autotuneRun_A f max_threads).2 =
      (trialSeq max_threads).takeWhile (fun u => (f u).isSome) ∧
    (autotuneRun_A f max_threads).1 =
      ((trialSeq max_threads).takeWhile (fun u => (f u).isSome)).foldl
        (fun s' u => selectStep_A s' u ((f u).getD 0))
        { best_threads := 1, best_throughput := 0 } ∧
    trialSeq 100 = [1, 2, 3, 4, 8, 16, 32, 64] ∧
    (∀ s t tp, (selectStep_B s t tp).2 = false ↔ ¬ tp > s.best_throughput) := by
  refine ⟨?_, ?_, by decide, ?_⟩
  · rw [autotuneRun_A, autotuneGo_spec]; simp [trialSeq]
  · rw [autotuneRun_A, autotuneGo_spec]; simp [trialSeq]
  · intro s t tp
    unfold selectStep_B
    by_cases h : tp > s.best_throughput
    · simp [if_pos h, h]
    · simp [if_neg h, h]

/-- C5 counterexample: the claim says a higher thread count whose
throughput is within 5 percent of the current best is preferred over the
lower current best, but variant B's selection (lines 443-449) keeps the
lower count and stops the loop: from best = 1 thread at throughput 100, a
2-thread trial at 99 (within 5 percent, 99 ≥ 95) leaves best_threads = 1
and breaks. -/
theorem C5_counterexample :
    (2 > 1 ∧ (99 : ℚ) ≥ (19 / 20) * 100) ∧
    (selectStep_B { best_threads := 1, best_throughput := 100 } 2 99).1.best_threads = 1 ∧
    (selectStep_B { best_threads := 1, best_throughput := 100 } 2 99).2 = false := by
  refine ⟨⟨by decide, by norm_num⟩, ?_, ?_⟩ <;> decide

/-- C5 amended: variant A's selection policy is exactly as claimed — the
recorded best throughput is replaced only when the candidate exceeds it
by more than 5 percent (in which case the candidate count is adopted),
and otherwise a higher thread count within 5 percent of the best (not
meaningfully worse) is preferred while keeping the recorded best
throughput; variant B adopts a candidate only on strict improvement, with
no 5 percent margin. -/
theorem C5_selection_policy (s : TuneState) (t : Nat) (tp : ℚ) :
    ((selectStep_A s t tp).best_throughput ≠ s.best_throughput →
      tp > s.best_throughput * (21 / 20)) ∧
    (tp > s.best_throughput * (21 / 20) →
      selectStep_A s t tp = { best_threads := t, best_throughput := tp }) ∧
    (¬ tp > s.best_throughput * (21 / 20) → t > s.best_threads →
      tp ≥ s.best_throughput * (19 / 20) →
      selectStep_A s t tp = { best_threads := t, best_throughput := s.best_throughput }) ∧
    (¬ tp > s.best_throughput * (21 / 20) →
      ¬ (t > s.best_threads ∧ tp ≥ s.best_throughput * (19 / 20)) →
      selectStep_A s t tp = s) := by
  unfold selectStep_A
  by_cases h1 : tp > s.best_throughput * (21 / 20)
  · refine ⟨fun _ => h1, fun _ => by rw [if_pos h1], fun h => absurd h1 h, fun h => absurd h1 h⟩
  · rw [if_neg h1]
    by_cases h2 : t > s.best_threads ∧ tp ≥ s.best_throughput * (19 / 20)
    · exact ⟨fun hne => absurd (by rw [if_pos h2]) hne, fun h => absurd h h1,
        fun _ _ _ => by rw [if_pos h2], fun _ hn => absurd h2 hn⟩
    · exact ⟨fun hne => absurd (by rw [if_neg h2]) hne, fun h => absurd h h1,
        fun _ ha hb => absurd ⟨ha, hb⟩ h2, fun _ _ => by rw [if_neg h2]⟩

theorem C5_selection_policy_witness :
    ((selectStep_A { best_threads := 1, best_throughput := 100 } 2 110).best_throughput ≠
        (100 : ℚ) →
      (110 : ℚ) > 100 * (21 / 20)) ∧
    ((110 : ℚ) > 100 * (21 / 20) →
      selectStep_A { best_threads := 1, best_throughput := 100 } 2 110 =
        { best_threads := 2, best_throughput := 110 }) ∧
    (¬ (110 : ℚ) > 100 * (21 / 20) → 2 > 1 → (110 : ℚ) ≥ 100 * (19 / 20) →
      selectStep_A { best_threads := 1, best_throughput := 100 } 2 110 =
        { best_threads := 2, best_throughput := 100 }) ∧
    (¬ (110 : ℚ) > 100 * (21 / 20) →
      ¬ (2 > 1 ∧ (110 : ℚ) ≥ 100 * (19 / 20)) →
      selectStep_A { best_threads := 1, best_throughput := 100 } 2 110 =
        { best_threads := 1, best_throughput := 100 }) :=
  C5_selection_policy { best_threads := 1, best_throughput := 100 } 2 110

/-- Queue-and-stop-flag portion of a pool's state (tasks are abstract
identifiers; the queue lists them in FIFO order). -/
structure PoolQState where
  stop : Bool
  queue : List Nat
  deriving DecidableEq

/-- Variant A ThreadPool::enqueue, lines 86-92: under the queue lock, a
set stop flag raises "Enqueue on stopped ThreadPool" before anything is
queued; otherwise the task is appended to the queue. -/
def enqueue_A (st : PoolQState) (t : Nat) : Except String PoolQState :=
  if st.stop then Except.error "Enqueue on stopped ThreadPool"
  else Except.ok { st with queue := st.queue ++ [t] }

/-- ParabolaThreadPool::submit (parabola_wrapper.h lines 35-46) and
variant B's ThreadPool::enqueue (lines 381-392): the task is appended to
the queue unconditionally — there is no stop-flag check and no error
path. -/
def submit_h (st : PoolQState) (t : Nat) : PoolQState :=
  { st with queue := st.queue ++ [t] }

/-- C8 counterexample: the claim says submitting after stop is rejected
synchronously with a "pool stopped" error and never silently enqueued,
but ParabolaThreadPool::submit has no stop check: on a stopped, drained
pool it returns normally with the task sitting in the queue of a pool
whose workers have already exited, while variant A's enqueue raises the
error on the same state. -/
theorem C8_counterexample :
    submit_h { stop := true, queue := [] } 7 = { stop := true, queue := [7] } ∧
    enqueue_A { stop := true, queue := [] } 7 =
      Except.error "Enqueue on stopped ThreadPool" := by
  constructor <;> rfl

/-- C8 amended: variant A's ThreadPool::enqueue rejects a submission
synchronously with the "pool stopped" error exactly when the stop flag is
set, and otherwise enqueues the task; ParabolaThreadPool::submit (and
variant B's enqueue) appends the task to the queue regardless of the stop
flag, silently accepting work a stopped pool will never run. -/
theorem C8_enqueue_stop_check (st : PoolQState) (t : Nat) :
    (st.stop = true → enqueue_A st t = Except.error "Enqueue on stopped ThreadPool") ∧
    (st.stop = false →
      enqueue_A st t = Except.ok { st with queue := st.queue ++ [t] }) ∧
    (submit_h st t).queue = st.queue ++ [t] ∧
    (submit_h st t).stop = st.stop := by
  refine ⟨fun h => ?_, fun h => ?_, rfl, rfl⟩
  · unfold enqueue_A; rw [if_pos h]
  · unfold enqueue_A; rw [h]; simp

theorem C8_enqueue_stop_check_witness :
    (({ stop := true, queue := [] } : PoolQState).stop = true →
      enqueue_A { stop := true, queue := [] } 9 =
        Except.error "Enqueue on stopped ThreadPool") ∧
    (({ stop := true, queue := [] } : PoolQState).stop = false →
      enqueue_A { stop := true, queue := [] } 9 =
        Except.ok { stop := true, queue := [] ++ [9] }) ∧
    (submit_h { stop := true, queue := [] } 9).queue = [] ++ [9] ∧
    (submit_h { stop := true, queue := [] } 9).stop = true :=
  C8_enqueue_stop_check { stop := true, queue := [] } 9

/-- Observable events of one compute_batch call, at the granularity the
C3 claim speaks about: running the autotuner, one external computation
per request, and closing the external routine's global state. -/
inductive BatchEvent where
  | autotuneRun
  | calcReq (r : PlanetRequest)
  | closeEph
  deriving DecidableEq

/-- Event trace of variant A's compute_batch, lines 243-303: only the
per-request computation calls; the function neither invokes
autotune_threads nor swe_close (swe_close appears only in the pool's
process-exit destructor, line 108, after all workers are joined). -/
def computeBatchEvents_A (reqs : List PlanetRequest) : List BatchEvent :=
  reqs.map BatchEvent.calcReq

/-- Event trace of variant B's compute_batch, lines 457-489: line 458
runs autotune_threads on the caller's batch, then the per-request
computations, then line 487 closes the ephemeris — on every single call. -/
def computeBatchEvents_B (reqs : List PlanetRequest) : List BatchEvent :=
  BatchEvent.autotuneRun :: reqs.map BatchEvent.calcReq ++ [BatchEvent.closeEph]

/-- C3: the claim says a production batch call never runs the autotuner in
its own execution path and never closes the external routine's global
state, with close happening at most once per process; variant B's
compute_batch violates all of it — a single one-request call both runs
the autotuner and closes the ephemeris, and two consecutive calls close
it twice; variant A's trace contains neither event. -/
theorem C3_batch_runs_autotune_and_close :
    BatchEvent.autotuneRun ∈ computeBatchEvents_B reqsDemo2 ∧
    BatchEvent.closeEph ∈ computeBatchEvents_B reqsDemo2 ∧
    (computeBatchEvents_B reqsDemo2 ++ computeBatchEvents_B reqsDemo2).count
      BatchEvent.closeEph = 2 ∧
    BatchEvent.autotuneRun ∉ computeBatchEvents_A reqsDemo2 ∧
    BatchEvent.closeEph ∉ computeBatchEvents_A reqsDemo2 := by
  decide

/-- The int → size_t conversion in read_swe_file, lines 53-54: C++ wraps
the signed value modulo 2^64. -/
def toSizeT (i : Int) : Nat :=
  (i % ((2 : Int) ^ 64)).toNat

/-- swevid_loader.cpp read_swe_file, lines 41-61: requires the region to
be mapped and the name to end in ".swevid"; converts offset and length to
size_t, rejects with -2 when the (wrapping, modulo 2^64) sum exceeds the
mapped size, and otherwise memcpy-reads ulength bytes starting at byte
uoffset of the mapped region, returning 0.  The model returns the start
and length of the range the memcpy reads. -/
def read_swe_file (loaded : Bool) (size : Nat) (fname : List Char)
    (offset length : Int) : Except Int (Nat × Nat) :=
  if !loaded then Except.error (-1)
  else if fname.length < 7 ∨ fname.drop (fname.length - 7) ≠ ".swevid".toList then
    Except.error (-1)
  else
    let uoffset := toSizeT offset
    let ulength := toSizeT length
    if (uoffset + ulength) % 2 ^ 64 > size then Except.error (-2)
    else Except.ok (uoffset, ulength)

/-- A byte range [start, start + len) lies inside a mapped region of the
given size. -/
def regionContains (size start len : Nat) : Prop :=
  start + len ≤ size

/-- C9: the claim says that for negative offset or length the conversion
to unsigned must not defeat the bounds check and a negative error code is
returned with no read outside the mapped region; but with a 10-byte
region mapped, fname "x.swevid", offset = -1 and length = 2, the wrapped
sum (2^64 - 1) + 2 ≡ 1 mod 2^64 passes the check, the call reports
success, and the memcpy source range starts at byte 2^64 - 1 — far
outside the region. -/
theorem C9_signed_overflow_defeats_bounds_check :
    read_swe_file true 10 "x.swevid".toList (-1) 2 = Except.ok (2 ^ 64 - 1, 2) ∧
    ¬ regionContains 10 (2 ^ 64 - 1) 2 := by
  constructor
  · rfl
  · intro h
    exact absurd h (by unfold regionContains; decide)

/-- Worker-thread phase in the resize interaction: blocked in
condition.wait needing queue_mutex to return, running a task outside the
lock, or exited from worker_loop. -/
inductive WPhase where
  | waiting
  | running (t : Nat)
  | exited
  deriving DecidableEq

/-- Resizing-thread phase: inside the worker.join() loop of resize
(lines 55-59, entered while still holding queue_mutex), or past it. -/
inductive RPhase where
  | joining
  | done
  deriving DecidableEq

/-- Joint configuration of ThreadPool::resize (lines 47-69) and one
worker running worker_loop (lines 116-130): whether the resize caller
holds queue_mutex, the stop flag, the task queue, both thread phases, and
the tasks executed so far. -/
structure ResizeCfg where
  lockHeld : Bool
  stop : Bool
  queue : List Nat
  wphase : WPhase
  rphase : RPhase
  executed : List Nat
  deriving DecidableEq

/-- Interleaving semantics of the resize/worker pair.  Every worker
action that touches the stop flag or the queue happens under queue_mutex
(condition.wait must reacquire it before returning), so those steps
require the resize caller not to hold the lock; the resize caller only
proceeds past join once the worker has exited and releases the lock after
the join loop. -/
inductive PStep : ResizeCfg → ResizeCfg → Prop where
  | workerExit (c : ResizeCfg) (h1 : c.lockHeld = false) (h2 : c.wphase = WPhase.waiting)
      (h3 : c.stop = true) (h4 : c.queue = []) :
      PStep c { c with wphase := WPhase.exited }
  | workerDequeue (c : ResizeCfg) (t : Nat) (ts : List Nat) (h1 : c.lockHeld = false)
      (h2 : c.wphase = WPhase.waiting) (h3 : c.queue = t :: ts) :
      PStep c { c with queue := ts, wphase := WPhase.running t }
  | workerFinish (c : ResizeCfg) (t : Nat) (h : c.wphase = WPhase.running t) :
      PStep c { c with wphase := WPhase.waiting, executed := c.executed ++ [t] }
  | resizerJoin (c : ResizeCfg) (h1 : c.rphase = RPhase.joining)
      (h2 : c.wphase = WPhase.exited) :
      PStep c { c with rphase := RPhase.done, lockHeld := false }

/-- The configuration resize reaches on a pool with one idle worker and
task 0 still queued: resize has taken queue_mutex (line 52), set stop
(line 53), notified, and entered the join loop (lines 55-59) without ever
releasing the lock; the worker is in condition.wait waiting to reacquire
the mutex. -/
def resizeDeadlockCfg : ResizeCfg :=
  { lockHeld := true, stop := true, queue := [0], wphase := WPhase.waiting,
    rphase := RPhase.joining, executed := [] }

theorem resizeDeadlockCfg_stuck (c : ResizeCfg) (h : PStep resizeDeadlockCfg c) :
    False := by
  cases h with
  | workerExit h1 h2 h3 h4 => exact absurd h1 (by decide)
  | workerDequeue t ts h1 h2 h3 => exact absurd h1 (by decide)
  | workerFinish t ht => simp [resizeDeadlockCfg] at ht
  | resizerJoin h1 h2 => simp [resizeDeadlockCfg] at h2

theorem resizeDeadlockCfg_reach (c : ResizeCfg)
    (h : Relation.ReflTransGen PStep resizeDeadlockCfg c) : c = resizeDeadlockCfg := by
  induction h with
  | refl => rfl
  | tail hab hbc ih =>
    subst ih
    exact absurd hbc (fun hs => resizeDeadlockCfg_stuck _ hs)

/-- C4: the claim says every task enqueued before a stop or resize is
eventually executed; but once resize on a pool with a live worker reaches
its join loop — holding queue_mutex the whole time, unlike the destructor
which releases it first — no step of either thread is enabled: in every
reachable configuration the queued task 0 is still unexecuted, the worker
never exits, and the join never completes.  The queued task is never
executed and resize never returns. -/
theorem C4_resize_deadlock_drops_task (c : ResizeCfg)
    (h : Relation.ReflTransGen PStep resizeDeadlockCfg c) :
    0 ∉ c.executed ∧ c.queue = [0] ∧ c.rphase = RPhase.joining ∧
      c.wphase ≠ WPhase.exited := by
  rw [resizeDeadlockCfg_reach c h]
  refine ⟨by simp [resizeDeadlockCfg], rfl, rfl, by simp [resizeDeadlockCfg]⟩

theorem C4_resize_deadlock_drops_task_witness :
    0 ∉ resizeDeadlockCfg.executed ∧ resizeDeadlockCfg.queue = [0] ∧
      resizeDeadlockCfg.rphase = RPhase.joining ∧
      resizeDeadlockCfg.wphase ≠ WPhase.exited :=
  C4_resize_deadlock_drops_task resizeDeadlockCfg Relation.ReflTransGen.refl
